import Mathlib

/-!
Shallow embedding of the dev-server subsystem of
`src/apps/desktop/src-tauri/src/commands.rs` (detect, start, stop, state,
diagnose, the explicit-port parser and the log buffer), together with
theorems settling the frozen claims about it.

External effects (filesystem reads, JSON parsing by serde, process
spawning, `kill -0` liveness probes, TCP connects) are modelled as
explicit inputs or oracle functions; everything the Rust code computes
from those signals is translated directly.
-/

/-- Tokenizer worker mirroring Rust `str::split_whitespace`:
splits on whitespace and drops empty tokens. -/
def splitWsAux : List Char → List Char → List (List Char)
  | [], acc => if acc = [] then [] else [acc.reverse]
  | c :: rest, acc =>
    if c.isWhitespace then
      if acc = [] then splitWsAux rest [] else acc.reverse :: splitWsAux rest []
    else splitWsAux rest (c :: acc)

/-- Model of Rust `str::split_whitespace().collect::<Vec<_>>()`. -/
def splitWhitespace (s : String) : List String :=
  (splitWsAux s.data []).map (fun cs => String.mk cs)

/-- Accumulate decimal digits; any non-digit character aborts. -/
def charsToNatAux : List Char → Nat → Option Nat
  | [], acc => some acc
  | c :: rest, acc =>
    if c.isDigit then charsToNatAux rest (acc * 10 + (c.toNat - 48)) else none

/-- Model of Rust `str::parse::<u16>()`: an optional leading plus sign,
then a non-empty run of ASCII digits, value at most 65535. -/
def parseU16 (s : String) : Option Nat :=
  let cs := match s.data with
    | '+' :: rest => rest
    | other => other
  match cs with
  | [] => none
  | _ :: _ =>
    match charsToNatAux cs 0 with
    | some n => if n < 65536 then some n else none
    | none => none

/-- Model of Rust `str::starts_with` (does `s` start with `pat`). -/
def strStarts (s pat : String) : Bool :=
  pat.data.isPrefixOf s.data

/-- Drop the first `n` characters of a string (models what remains after
Rust `strip_prefix` succeeds on an `n`-character pattern). -/
def dropChars (s : String) (n : Nat) : String :=
  String.mk (s.data.drop n)

/-- Does `pat` occur as a contiguous sublist of the second list. -/
def subListOf (pat : List Char) : List Char → Bool
  | [] => pat.isEmpty
  | c :: rest => pat.isPrefixOf (c :: rest) || subListOf pat rest

/-- Model of Rust `str::contains` for a literal pattern. -/
def containsStr (s pat : String) : Bool :=
  subListOf pat.data s.data

/-- Model of Rust `str::to_lowercase` (ASCII-level, which is all the
package-manager strings exercise). -/
def charsLower (s : String) : String :=
  String.mk (s.data.map Char.toLower)

/-- Scanner loop of `parse_explicit_port_from_dev_script`: one Rust loop
iteration per token, with the same recognition order (`-p`/`--port` with a
following value token, then `--port=value`, then `-pvalue`), returning at
the first value that parses as a `u16` and otherwise continuing with the
next token. -/
def goPorts : List String → Option Nat
  | [] => none
  | part :: rest =>
    if part = "-p" ∨ part = "--port" then
      match rest with
      | next :: _ =>
        match parseU16 next with
        | some port => some port
        | none => goPorts rest
      | [] => goPorts rest
    else if strStarts part "--port=" then
      match parseU16 (dropChars part 7) with
      | some port => some port
      | none => goPorts rest
    else if strStarts part "-p" then
      match parseU16 (dropChars part 2) with
      | some port => some port
      | none => goPorts rest
    else goPorts rest

/-- Model of `parse_explicit_port_from_dev_script` in `commands.rs`. -/
def parse_explicit_port_from_dev_script (dev_script : String) : Option Nat :=
  let parts := splitWhitespace dev_script
  if parts = [] then none else goPorts parts

/-- Model of `infer_default_dev_port` in `commands.rs`. -/
def infer_default_dev_port (dev_script : String) : Option Nat :=
  if containsStr dev_script "next" then some 3000
  else if containsStr dev_script "vite" then some 5173
  else if containsStr dev_script "remix" then some 3000
  else some 3000

/-- Model of a parsed `serde_json::Value`. -/
inductive Json where
  | str (s : String)
  | num (n : Int)
  | bool (b : Bool)
  | null
  | arr (elems : List Json)
  | obj (fields : List (String × Json))

/-- First-match field lookup in a JSON object's field list. -/
def jsonLookup : List (String × Json) → String → Option Json
  | [], _ => none
  | (k, v) :: rest, key => if k = key then some v else jsonLookup rest key

/-- Model of `serde_json::Value::get` on a string key: a field of an
object, `None` on every other value shape. -/
def Json.get : Json → String → Option Json
  | .obj fields, key => jsonLookup fields key
  | _, _ => none

/-- Model of `serde_json::Value::as_str`. -/
def Json.asStr : Json → Option String
  | .str s => some s
  | _ => none

/-- Model of `serde_json::Value::as_object` (as its field list). -/
def Json.asObj : Json → Option (List (String × Json))
  | .obj fields => some fields
  | _ => none

/-- The `DevServerConfig` struct of `commands.rs` (ports as `Nat`,
in-range by construction of `parseU16`). -/
structure DevServerConfig where
  command : String
  args : List String
  port : Option Nat
  explicit_port : Option Nat
deriving DecidableEq

/-- Outcome of the two external steps `dev_server_detect` performs on
`package.json`: the file may be absent, may exist but fail
`fs::read_to_string`, may fail `serde_json::from_str`, or parse to a
JSON value. -/
inductive PkgJsonFile where
  | missing
  | unreadable (err : String)
  | malformed (err : String)
  | parsed (json : Json)

/-- Model of `dev_server_detect` in `commands.rs`: `Ok(None)` when
`package.json` is absent, the read or parse error when it cannot be
loaded, and otherwise the config built from the `packageManager` field
and the `scripts.dev` string. -/
def dev_server_detect : PkgJsonFile → Except String (Option DevServerConfig)
  | .missing => .ok none
  | .unreadable err => .error err
  | .malformed err => .error err
  | .parsed json =>
    let package_manager := ((json.get "packageManager").bind Json.asStr).map charsLower
    match (json.get "scripts").bind Json.asObj with
    | some scripts =>
      match (jsonLookup scripts "dev").bind Json.asStr with
      | some dev_script =>
        let parts := splitWhitespace dev_script
        if parts = [] then .ok none
        else
          let explicit_port := parse_explicit_port_from_dev_script dev_script
          let port := explicit_port.or (infer_default_dev_port dev_script)
          let pm := package_manager.getD ""
          let command :=
            if strStarts pm "pnpm" then "pnpm"
            else if strStarts pm "npm" then "npm"
            else if strStarts pm "yarn" then "yarn"
            else "bun"
          let args := if command = "yarn" then ["dev"] else ["run", "dev"]
          .ok (some { command := command, args := args, port := port,
                      explicit_port := explicit_port })
      | none => .ok none
    | none => .ok none

/-- Build the model of a `package.json` holding an optional
`packageManager` field and a `scripts.dev` entry. -/
def mkPkgJson : Option String → String → Json
  | some pm, d => .obj [("packageManager", .str pm), ("scripts", .obj [("dev", .str d)])]
  | none, d => .obj [("scripts", .obj [("dev", .str d)])]

/-- A spawned OS child process handle, identified by its pid. -/
structure Child where
  pid : Nat
deriving DecidableEq

/-- The `DevServerProcess` record of `commands.rs` (the log vector's
shared mutex is implicit: each operation below acts on one record at a
time, as the Rust code does under the lock). -/
structure DevServerProcess where
  child : Option Child
  port : Option Nat
  logs : List String

/-- The `DevServerManager` keyed table: at most one record per path key,
by construction (a map models `HashMap<String, DevServerProcess>`). -/
def Servers : Type := String → Option DevServerProcess

/-- Model of `HashMap::insert`: the new record replaces any prior one
under the same key; other keys are untouched. -/
def updateServers (servers : Servers) (path : String) (record : DevServerProcess) : Servers :=
  fun k => if k = path then some record else servers k

/-- Timestamped log line, modelling `format!("[{}] {}", now, line)`. -/
def stampLog (now line : String) : String :=
  "[" ++ now ++ "] " ++ line

/-- Model of the `add_log` helper inside `dev_server_start`: push the
timestamped line, then evict the oldest entry when the length exceeds
200. -/
def add_log (now : String) (logs : List String) (line : String) : List String :=
  let pushed := logs ++ [stampLog now line]
  if 200 < pushed.length then pushed.drop 1 else pushed

/-- One `Command::spawn` attempt as configured by `dev_server_start`:
the program, its argument list, the working directory passed to
`current_dir`, and the `PORT` environment variable when set. -/
structure SpawnAttempt where
  command : String
  args : List String
  cwd : String
  port_env : Option Nat
deriving DecidableEq

/-- OS-visible effects of one `dev_server_start` call: the pids that
received `Child::kill`, and the spawn attempts in order. -/
structure StartEffect where
  kills : List Nat
  spawns : List SpawnAttempt
deriving DecidableEq

/-- Result of one `dev_server_start` call: the returned value, the
updated keyed table, and the OS effects. -/
structure StartOutcome where
  result : Except String Unit
  servers : Servers
  eff : StartEffect

/-- Model of `dev_server_start` in `commands.rs`. The spawn oracle maps
a (program, args) pair to the spawned child or the OS error string.
Faithful to the source: any existing child for the key is killed first
(best effort, the handle stays in place); on primary spawn failure a
fallback manager (`npm` when the configured command is `bun`, else
`bun`) is spawned with `run dev`; only if both fail does the call return
an error, leaving the table unchanged; on success a fresh one-line log
buffer is created and the new record replaces the old one. -/
def dev_server_start (spawn : String → List String → Except String Child)
    (now : String) (servers : Servers) (path : String)
    (config : DevServerConfig) : StartOutcome :=
  let kills := match servers path with
    | some server =>
      match server.child with
      | some child => [child.pid]
      | none => []
    | none => []
  let fallback_command := if config.command = "bun" then "npm" else "bun"
  let fallback_args := if fallback_command = "yarn" then ["dev"] else ["run", "dev"]
  let attempt₁ : SpawnAttempt := ⟨config.command, config.args, path, config.port⟩
  let install := fun (child : Child) (spawns : List SpawnAttempt) =>
    let started_command := config.command ++ " " ++ String.intercalate " " config.args
    let logs := [stampLog now ("> " ++ started_command)]
    let record : DevServerProcess := ⟨some child, config.port, logs⟩
    StartOutcome.mk (.ok ()) (updateServers servers path record) ⟨kills, spawns⟩
  match spawn config.command config.args with
  | .ok child => install child [attempt₁]
  | .error err =>
    let attempt₂ : SpawnAttempt := ⟨fallback_command, fallback_args, path, config.port⟩
    match spawn fallback_command fallback_args with
    | .ok child => install child [attempt₁, attempt₂]
    | .error fallback_err =>
      StartOutcome.mk
        (.error ("Failed to start dev server with \x27" ++ config.command ++ "\x27 ("
          ++ err ++ "). Fallback \x27" ++ fallback_command ++ "\x27 failed: " ++ fallback_err))
        servers ⟨kills, [attempt₁, attempt₂]⟩

/-- Model of `dev_server_stop` in `commands.rs`: best-effort kill of the
child if one exists, clear the child handle, append a stop marker line
to the retained logs (note: a plain `push`, not `add_log`). Untracked
keys are a no-op. Returns the updated table and the killed pids. -/
def dev_server_stop (now : String) (servers : Servers) (path : String) :
    (Except String Unit) × Servers × List Nat :=
  match servers path with
  | some server =>
    let kills := match server.child with
      | some child => [child.pid]
      | none => []
    let record : DevServerProcess :=
      ⟨none, server.port, server.logs ++ [stampLog now "Server stopped"]⟩
    (.ok (), updateServers servers path record, kills)
  | none => (.ok (), servers, [])

/-- The TCP probe both `dev_server_state` and `dev_server_diagnose`
perform: one `TcpStream::connect_timeout` against `127.0.0.1` at the
given port. The oracle maps (host, port) to connect success. -/
def tcp_port_check (reach : String → Nat → Bool) (port : Nat) : Bool :=
  reach "127.0.0.1" port

/-- The `DevServerState` struct of `commands.rs`. -/
structure DevServerState where
  running : Bool
  port : Option Nat
  logs : List String
deriving DecidableEq

/-- Model of `dev_server_state` in `commands.rs`: for a tracked key,
`running` is the conjunction of the `kill -0` liveness probe on the
child (false when no child) and the TCP connect probe on the recorded
port (false when no port); for an untracked key the zero-value state is
returned. The liveness oracle maps a pid to `kill -0` success. -/
def dev_server_state (alive : Nat → Bool) (reach : String → Nat → Bool)
    (servers : Servers) (path : String) : Except String DevServerState :=
  match servers path with
  | some server =>
    let process_alive := match server.child with
      | some child => alive child.pid
      | none => false
    let port_listening := match server.port with
      | some port => tcp_port_check reach port
      | none => false
    let running := process_alive && port_listening
    .ok ⟨running, server.port, server.logs⟩
  | none => .ok ⟨false, none, []⟩

/-- The `DevServerDiagnosis` struct of `commands.rs`. -/
structure DevServerDiagnosis where
  process_alive : Bool
  port_listening : Bool
  last_logs : List String
  problem : String
  suggestion : String
  suggested_command : Option String
  diagnosis_code : String
deriving DecidableEq

/-- The `has_dev_script` check of `dev_server_diagnose`: the parsed
`package.json` has a `scripts.dev` entry of any shape; a read or parse
failure counts as no dev script. -/
def hasDevScriptIn : PkgJsonFile → Bool
  | .parsed json => ((json.get "scripts").bind (fun s => s.get "dev")).isSome
  | _ => false

/-- Model of `dev_server_diagnose` in `commands.rs`: filesystem checks
first (missing `package.json`, missing `scripts.dev`, missing
`node_modules`, the latter given as an input flag), then process and
port signals gathered from the tracked record (all-false/empty when the
key is untracked), then the log-pattern checks in source order, then
the process/port state checks, then the fallback. -/
def dev_server_diagnose (alive : Nat → Bool) (reach : String → Nat → Bool)
    (pkg : PkgJsonFile) (node_modules_exists : Bool)
    (servers : Servers) (path : String) (port : Nat) :
    Except String DevServerDiagnosis :=
  match pkg with
  | .missing => .ok ⟨false, false, [],
      "No package.json found in this directory",
      "Make sure you\x27ve opened the correct project folder. This directory doesn\x27t appear to be a Node.js project.",
      none, "no_package_json"⟩
  | pkgFile =>
    if !hasDevScriptIn pkgFile then
      .ok ⟨false, false, [],
        "No \x27dev\x27 script found in package.json",
        "Add a \"dev\" script to your package.json, for example: \"dev\": \"next dev\" or \"dev\": \"vite\"",
        none, "no_dev_script"⟩
    else if !node_modules_exists then
      .ok ⟨false, false, [],
        "Dependencies aren\x27t installed yet",
        "Run bun install in your project directory to install the packages your app needs.",
        some "bun install", "no_node_modules"⟩
    else
      let signals := match servers path with
        | some server =>
          let pa := match server.child with
            | some child => alive child.pid
            | none => false
          let pl := tcp_port_check reach port
          let len := server.logs.length
          let start := if 20 < len then len - 20 else 0
          (pa, pl, server.logs.drop start)
        | none => (false, false, [])
      let process_alive := signals.1
      let port_listening := signals.2.1
      let last_logs := signals.2.2
      let log_text := String.intercalate "\n" last_logs
      if (!process_alive
            && (last_logs.isEmpty || containsStr log_text "ENOENT"
                || containsStr log_text "not found"
                || containsStr log_text "command not found"))
          && (last_logs.isEmpty || containsStr log_text "ENOENT"
              || containsStr log_text "command not found") then
        .ok ⟨process_alive, port_listening, last_logs,
          "Couldn\x27t find the dev command on your system",
          "Make sure your package manager (bun, npm, etc.) is installed and available in your PATH.",
          none, "command_not_found"⟩
      else if containsStr log_text "EADDRINUSE"
          || containsStr log_text "address already in use" then
        .ok ⟨process_alive, port_listening, last_logs,
          "Port " ++ Nat.repr port ++ " is already being used by another app",
          "Close the other process using this port, or change your dev server port.",
          some ("lsof -ti:" ++ Nat.repr port ++ " | xargs kill"), "port_in_use"⟩
      else if containsStr log_text "MODULE_NOT_FOUND"
          || containsStr log_text "Cannot find module"
          || containsStr log_text "Module not found" then
        .ok ⟨process_alive, port_listening, last_logs,
          "Some packages are missing",
          "Install your project\x27s dependencies to fix the missing modules.",
          some "bun install", "missing_deps"⟩
      else if containsStr log_text "SyntaxError" || containsStr log_text "TypeError"
          || containsStr log_text "ReferenceError" || containsStr log_text "error TS"
          || containsStr log_text "Build error"
          || containsStr log_text "Failed to compile" then
        .ok ⟨process_alive, port_listening, last_logs,
          "Your code has errors that crashed the server",
          "Check the logs below for the specific error and fix it in your code.",
          none, "script_error"⟩
      else if process_alive && !port_listening then
        .ok ⟨process_alive, port_listening, last_logs,
          "Server started but isn\x27t responding on port " ++ Nat.repr port,
          "Your framework may use a different port. Check your config file (next.config.js, vite.config.ts, etc.) or try waiting a bit longer for large projects.",
          none, "wrong_port"⟩
      else if !process_alive && !last_logs.isEmpty then
        .ok ⟨process_alive, port_listening, last_logs,
          "The dev server stopped unexpectedly",
          "Check the logs below for details about what went wrong.",
          none, "process_crashed"⟩
      else
        .ok ⟨process_alive, port_listening, last_logs,
          "Something went wrong",
          "Check the dev server logs for more information about the error.",
          none, "unknown"⟩

/-- All the log-text patterns `dev_server_diagnose` consults before its
process/port state checks are absent. Used to state under which log
contents the state checks are reached. -/
def logPatternFree (log_text : String) : Bool :=
  !(containsStr log_text "EADDRINUSE") && !(containsStr log_text "address already in use")
    && !(containsStr log_text "MODULE_NOT_FOUND")
    && !(containsStr log_text "Cannot find module")
    && !(containsStr log_text "Module not found")
    && !(containsStr log_text "SyntaxError") && !(containsStr log_text "TypeError")
    && !(containsStr log_text "ReferenceError") && !(containsStr log_text "error TS")
    && !(containsStr log_text "Build error")
    && !(containsStr log_text "Failed to compile")

/-- Modelled from the spec: the reachability probe the specification
describes, which is absent from the source — TCP connects against
`localhost`, `127.0.0.1` and `::1` in sequence for the given port,
succeeding as soon as any one connects. Stated only to be compared with
the source's `tcp_port_check`. -/
def spec_port_probe (reach : String → Nat → Bool) (port : Nat) : Bool :=
  reach "localhost" port || reach "127.0.0.1" port || reach "::1" port

/-- Spawn oracle for which `bun` is absent (`command not found`) while
the fallback manager spawns a child with pid 77. -/
def spawnBunFails : String → List String → Except String Child :=
  fun command _ => if command = "bun" then .error "command not found" else .ok ⟨77⟩

/-- Spawn oracle for which every spawn fails. -/
def spawnAllFail : String → List String → Except String Child :=
  fun _ _ => .error "nf"

/-- Reachability oracle under which only `::1` accepts connections. -/
def reachOnlyV6 : String → Nat → Bool :=
  fun host _ => host == "::1"

/-- A table tracking one record under key `/proj`: a child with pid 9,
expected port 3000, and one captured log line naming port 5173. -/
def cxDiagnoseServers : Servers :=
  updateServers (fun _ => none) "/proj" ⟨some ⟨9⟩, some 3000, ["Local: http://localhost:5173"]⟩

/-- A concrete batch of 250 distinct log lines. -/
def lines250 : List String :=
  (List.range 250).map Nat.repr

theorem add_log_eq_drop (now : String) (logs : List String) (line : String)
    (h : logs.length ≤ 200) :
    add_log now logs line =
      (logs ++ [stampLog now line]).drop (logs.length + 1 - 200) := by
  unfold add_log
  by_cases h2 : 200 < (logs ++ [stampLog now line]).length
  · rw [if_pos h2]
    simp only [List.length_append, List.length_cons, List.length_nil] at h2
    have : logs.length + 1 - 200 = 1 := by omega
    rw [this]
  · rw [if_neg h2]
    simp only [List.length_append, List.length_cons, List.length_nil] at h2
    have : logs.length + 1 - 200 = 0 := by omega
    rw [this, List.drop_zero]

set_option maxRecDepth 4000 in
theorem foldl_add_log (now : String) (lines : List String) :
    ∀ acc : List String, acc.length ≤ 200 →
      lines.foldl (add_log now) acc =
        (acc ++ lines.map (stampLog now)).drop (acc.length + lines.length - 200) := by
  induction lines with
  | nil =>
    intro acc h
    have h0 : acc.length - 200 = 0 := by omega
    simp [h0]
  | cons x xs ih =>
    intro acc h
    rw [List.foldl_cons]
    have hlen : (add_log now acc x).length ≤ 200 := by
      rw [add_log_eq_drop now acc x h]
      simp only [List.length_drop, List.length_append, List.length_cons, List.length_nil]
      omega
    rw [ih _ hlen, add_log_eq_drop now acc x h]
    have hle : acc.length + 1 - 200 ≤ (acc ++ [stampLog now x]).length := by
      simp only [List.length_append, List.length_cons, List.length_nil]
      omega
    have harr : (acc ++ [stampLog now x]) ++ xs.map (stampLog now) =
        acc ++ (x :: xs).map (stampLog now) := by
      simp [List.append_assoc]
    rw [← List.drop_append_of_le_length hle, List.drop_drop, harr]
    congr 1
    simp only [List.length_drop, List.length_append, List.length_cons, List.length_nil,
      List.length_map]
    omega

/-- C4 (amended): appends performed through `add_log` keep the buffer at
most 200 entries with FIFO eviction preserving arrival order — appending
250 lines to an empty buffer leaves exactly the most recent 200, in
original relative order — but the stop-marker append in
`dev_server_stop` bypasses the cap: it always grows the retained log by
one line, whatever its length. -/
theorem log_buffer_cap (now : String) :
    (∀ lines : List String, lines.length = 250 →
      lines.foldl (add_log now) [] = (lines.map (stampLog now)).drop 50 ∧
      (lines.foldl (add_log now) []).length = 200) ∧
    (∀ logs line, logs.length ≤ 200 → (add_log now logs line).length ≤ 200) ∧
    (∀ servers path server, servers path = some server →
      (dev_server_stop now servers path).2.1 path =
        some ⟨none, server.port, server.logs ++ [stampLog now "Server stopped"]⟩) := by
  refine ⟨?_, ?_, ?_⟩
  · intro lines h250
    have hf := foldl_add_log now lines [] (by simp)
    constructor
    · rw [hf]
      simp only [List.nil_append, List.length_nil, h250]
    · rw [hf]
      simp only [List.nil_append, List.length_nil, List.length_drop, List.length_map, h250]
  · intro logs line h
    rw [add_log_eq_drop now logs line h]
    simp only [List.length_drop, List.length_append, List.length_cons, List.length_nil]
    omega
  · intro servers path server hs
    simp [dev_server_stop, hs, updateServers]

/-- C4 counterexample: a log buffer filled to exactly the 200-entry cap
by a sequence of 250 `add_log` appends grows to 201 entries when
`dev_server_stop` appends its stop marker, so the 200-entry cap does
not hold across every append operation performed on the buffer. -/
theorem log_buffer_stop_append_cx :
    (lines250.foldl (add_log "t") []).length = 200 ∧
    ((dev_server_stop "t"
          (updateServers (fun _ => none) "k" ⟨some ⟨1⟩, none, lines250.foldl (add_log "t") []⟩)
          "k").2.1 "k").map (fun record => record.logs.length) = some 201 := by
  have hf := foldl_add_log "t" lines250 [] (by simp)
  have hlen : (lines250.foldl (add_log "t") []).length = 200 := by
    rw [hf]
    simp only [List.nil_append, List.length_nil, List.length_drop, List.length_map, lines250,
      List.length_range]
  refine ⟨hlen, ?_⟩
  have hstop : ∀ L : List String,
      (dev_server_stop "t" (updateServers (fun _ => none) "k" ⟨some ⟨1⟩, none, L⟩) "k").2.1 "k" =
        some ⟨none, none, L ++ [stampLog "t" "Server stopped"]⟩ := by
    intro L
    simp [dev_server_stop, updateServers]
  rw [hstop]
  simp [List.length_append, hlen]

/-- Witness for `log_buffer_cap`: the hypotheses hold at 250 concrete
lines and at a concrete tracked record. -/
theorem log_buffer_cap_witness :
    lines250.length = 250 ∧
    (lines250.foldl (add_log "t") [] = (lines250.map (stampLog "t")).drop 50 ∧
      (lines250.foldl (add_log "t") []).length = 200) ∧
    (updateServers (fun _ => none) "k" ⟨none, none, []⟩) "k" =
      some (⟨none, none, []⟩ : DevServerProcess) ∧
    (dev_server_stop "t" (updateServers (fun _ => none) "k" ⟨none, none, []⟩) "k").2.1 "k" =
      some ⟨none, none, [] ++ [stampLog "t" "Server stopped"]⟩ :=
  ⟨by simp [lines250], (log_buffer_cap "t").1 lines250 (by simp [lines250]), rfl,
    (log_buffer_cap "t").2.2 _ "k" _ rfl⟩

/-- C10: `dev_server_detect` treats a missing `package.json` as
success-with-no-config (`Ok(None)`), while a `package.json` that exists
but cannot be read, or cannot be parsed as JSON, is surfaced to the
caller as an explicit error. -/
theorem dev_server_detect_missing_vs_malformed :
    dev_server_detect .missing = .ok none ∧
    (∀ err, dev_server_detect (.unreadable err) = .error err) ∧
    (∀ err, dev_server_detect (.malformed err) = .error err) :=
  ⟨rfl, fun _ => rfl, fun _ => rfl⟩

/-- C9: `dev_server_state` always returns `Ok` with a fully-populated
state, and for an untracked key it returns the zero value: not running,
no port, empty logs. -/
theorem dev_server_state_total (alive : Nat → Bool) (reach : String → Nat → Bool)
    (servers : Servers) (path : String) :
    (∃ st, dev_server_state alive reach servers path = .ok st) ∧
    (servers path = none →
      dev_server_state alive reach servers path = .ok ⟨false, none, []⟩) := by
  constructor
  · rcases hs : servers path with _ | server
    · exact ⟨⟨false, none, []⟩, by simp [dev_server_state, hs]⟩
    · have hok : dev_server_state alive reach servers path =
          .ok ⟨(match server.child with
              | some child => alive child.pid
              | none => false) &&
            (match server.port with
              | some port => tcp_port_check reach port
              | none => false), server.port, server.logs⟩ := by
        simp [dev_server_state, hs]
      exact ⟨_, hok⟩
  · intro hs
    simp [dev_server_state, hs]

/-- Witness for `dev_server_state_total` at an empty table. -/
theorem dev_server_state_total_witness :
    ((fun _ => none : Servers) "k" = none) ∧
    (∃ st, dev_server_state (fun _ => true) (fun _ _ => true) (fun _ => none) "k" = .ok st) ∧
    dev_server_state (fun _ => true) (fun _ _ => true) (fun _ => none) "k" =
      .ok ⟨false, none, []⟩ :=
  ⟨rfl, (dev_server_state_total (fun _ => true) (fun _ _ => true) (fun _ => none) "k").1,
    (dev_server_state_total (fun _ => true) (fun _ _ => true) (fun _ => none) "k").2 rfl⟩

/-- C2: in the state returned by `dev_server_state`, `running` is true
exactly when the tracked record has a child whose OS liveness probe
succeeds and a recorded port whose TCP connect probe succeeds in the
same query; if either probe fails, there is no child, no port, or the
key is untracked, `running` is false. -/
theorem dev_server_state_running_iff (alive : Nat → Bool) (reach : String → Nat → Bool)
    (servers : Servers) (path : String) (st : DevServerState)
    (h : dev_server_state alive reach servers path = .ok st) :
    st.running = true ↔
      ∃ server child port, servers path = some server ∧ server.child = some child ∧
        alive child.pid = true ∧ server.port = some port ∧
        tcp_port_check reach port = true := by
  rcases hs : servers path with _ | server
  · simp only [dev_server_state, hs] at h
    have hst : st = ⟨false, none, []⟩ := by
      cases h
      rfl
    subst hst
    simp [hs]
  · simp only [dev_server_state, hs] at h
    have hst : st = ⟨(match server.child with
        | some child => alive child.pid
        | none => false) &&
          (match server.port with
            | some port => tcp_port_check reach port
            | none => false), server.port, server.logs⟩ := by
      cases h
      rfl
    subst hst
    simp only [hs, Option.some.injEq]
    constructor
    · intro hrun
      rcases hb : server.child with _ | child
      · rw [hb] at hrun
        simp at hrun
      · rcases hp : server.port with _ | port
        · rw [hb, hp] at hrun
          simp at hrun
        · rw [hb, hp] at hrun
          simp only [Bool.and_eq_true] at hrun
          exact ⟨server, child, port, rfl, hb, hrun.1, hp, hrun.2⟩
    · rintro ⟨server2, child, port, hserver2, hchild, halive, hport, hreach⟩
      cases hserver2
      rw [hchild, hport]
      simp [halive, hreach]

/-- Witness for `dev_server_state_running_iff` at a tracked record with
a live child on a reachable port. -/
theorem dev_server_state_running_iff_witness :
    (dev_server_state (fun _ => true) (fun _ _ => true)
        (updateServers (fun _ => none) "k" ⟨some ⟨3⟩, some 3000, []⟩) "k" =
      .ok ⟨true, some 3000, []⟩) ∧
    ((true : Bool) = true ↔
      ∃ server child port,
        (updateServers (fun _ => none) "k" ⟨some ⟨3⟩, some 3000, []⟩) "k" = some server ∧
        server.child = some child ∧ (fun _ => true : Nat → Bool) child.pid = true ∧
        server.port = some port ∧ tcp_port_check (fun _ _ => true) port = true) :=
  ⟨rfl, dev_server_state_running_iff (fun _ => true) (fun _ _ => true)
    (updateServers (fun _ => none) "k" ⟨some ⟨3⟩, some 3000, []⟩) "k" ⟨true, some 3000, []⟩ rfl⟩

/-- C6 counterexample: under a reachability oracle where only `::1`
accepts connections, the probe the spec describes reports port 3000
reachable, but the probe in the source (one connect against
`127.0.0.1`) reports it unreachable, and `dev_server_state` therefore
reports a live tracked child as not running. -/
theorem tcp_probe_ignores_other_hosts_cx :
    tcp_port_check reachOnlyV6 3000 = false ∧
    spec_port_probe reachOnlyV6 3000 = true ∧
    tcp_port_check reachOnlyV6 3000 ≠ spec_port_probe reachOnlyV6 3000 ∧
    dev_server_state (fun _ => true) reachOnlyV6
        (updateServers (fun _ => none) "/proj" ⟨some ⟨9⟩, some 3000, []⟩) "/proj" =
      .ok ⟨false, some 3000, []⟩ :=
  ⟨rfl, rfl, by decide, rfl⟩

/-- C6 (amended): the reachability probe in the source consults only
`127.0.0.1`: it succeeds exactly when the TCP connect to `127.0.0.1`
succeeds, and every query outcome is invariant under changing the
reachability of any other host, `localhost` and `::1` included. -/
theorem tcp_port_check_only_loopback_v4 (reach₁ reach₂ : String → Nat → Bool)
    (h : ∀ q, reach₁ "127.0.0.1" q = reach₂ "127.0.0.1" q) :
    (∀ port, tcp_port_check reach₁ port = reach₁ "127.0.0.1" port) ∧
    (∀ port, tcp_port_check reach₁ port = tcp_port_check reach₂ port) ∧
    (∀ alive servers path,
      dev_server_state alive reach₁ servers path =
        dev_server_state alive reach₂ servers path) := by
  refine ⟨fun _ => rfl, fun port => h port, ?_⟩
  intro alive servers path
  rcases hs : servers path with _ | server
  · simp [dev_server_state, hs]
  · rcases hp : server.port with _ | port
    · simp [dev_server_state, hs, hp]
    · simp [dev_server_state, hs, hp, tcp_port_check, h port]

/-- Witness for `tcp_port_check_only_loopback_v4`: two oracles agreeing
on `127.0.0.1` but disagreeing on `::1`. -/
theorem tcp_port_check_only_loopback_v4_witness :
    (∀ q, (fun _ _ => false : String → Nat → Bool) "127.0.0.1" q =
      reachOnlyV6 "127.0.0.1" q) ∧
    ((∀ port, tcp_port_check (fun _ _ => false) port =
        (fun _ _ => false : String → Nat → Bool) "127.0.0.1" port) ∧
      (∀ port, tcp_port_check (fun _ _ => false) port = tcp_port_check reachOnlyV6 port) ∧
      (∀ alive servers path,
        dev_server_state alive (fun _ _ => false) servers path =
          dev_server_state alive reachOnlyV6 servers path)) :=
  ⟨fun _ => rfl,
    tcp_port_check_only_loopback_v4 (fun _ _ => false) reachOnlyV6 (fun _ => rfl)⟩

/-- C3: when `dev_server_start` runs for a key that already tracks a
record with a child, that prior child's pid receives `kill` before the
table is touched; on a successful primary spawn the key's single record
(the table holds at most one per key by construction) carries exactly
the newly spawned child; and no other key's record is affected. -/
theorem dev_server_start_kills_prior (spawn : String → List String → Except String Child)
    (now : String) (servers : Servers) (path : String) (config : DevServerConfig)
    (c₀ : Child) (h : (servers path).bind DevServerProcess.child = some c₀) :
    c₀.pid ∈ (dev_server_start spawn now servers path config).eff.kills ∧
    (∀ c, spawn config.command config.args = .ok c →
      ((dev_server_start spawn now servers path config).servers path).bind
        DevServerProcess.child = some c) ∧
    (∀ k, k ≠ path → (dev_server_start spawn now servers path config).servers k = servers k) := by
  rcases hs : servers path with _ | server
  · rw [hs] at h
    simp at h
  · rw [hs] at h
    simp only [Option.some_bind] at h
    rcases hsp : spawn config.command config.args with err | c1
    · rcases hsp2 : spawn (if config.command = "bun" then "npm" else "bun")
          (if (if config.command = "bun" then "npm" else "bun") = "yarn"
            then ["dev"] else ["run", "dev"]) with err2 | c2
      · refine ⟨?_, ?_, ?_⟩
        · simp [dev_server_start, hs, h, hsp, hsp2]
        · intro c hc
          cases hc
        · intro k hk
          simp [dev_server_start, hs, h, hsp, hsp2]
      · refine ⟨?_, ?_, ?_⟩
        · simp [dev_server_start, hs, h, hsp, hsp2]
        · intro c hc
          cases hc
        · intro k hk
          simp [dev_server_start, hs, h, hsp, hsp2, updateServers, hk]
    · refine ⟨?_, ?_, ?_⟩
      · simp [dev_server_start, hs, h, hsp]
      · intro c hc
        cases hc
        simp [dev_server_start, hs, h, hsp, updateServers]
      · intro k hk
        simp [dev_server_start, hs, h, hsp, updateServers, hk]

/-- Witness for `dev_server_start_kills_prior`: a table tracking a
child with pid 5 under key `k`, and a spawn oracle returning pid 6. -/
theorem dev_server_start_kills_prior_witness :
    ((updateServers (fun _ => none) "k" ⟨some ⟨5⟩, none, []⟩) "k").bind
        DevServerProcess.child = some ⟨5⟩ ∧
    ((5 : Nat) ∈ (dev_server_start (fun _ _ => .ok ⟨6⟩) "t"
        (updateServers (fun _ => none) "k" ⟨some ⟨5⟩, none, []⟩) "k"
        ⟨"bun", ["run", "dev"], none, none⟩).eff.kills ∧
      (∀ c, (fun _ _ => .ok ⟨6⟩ : String → List String → Except String Child)
          "bun" ["run", "dev"] = .ok c →
        ((dev_server_start (fun _ _ => .ok ⟨6⟩) "t"
            (updateServers (fun _ => none) "k" ⟨some ⟨5⟩, none, []⟩) "k"
            ⟨"bun", ["run", "dev"], none, none⟩).servers "k").bind
          DevServerProcess.child = some c) ∧
      (∀ k2, k2 ≠ "k" →
        (dev_server_start (fun _ _ => .ok ⟨6⟩) "t"
            (updateServers (fun _ => none) "k" ⟨some ⟨5⟩, none, []⟩) "k"
            ⟨"bun", ["run", "dev"], none, none⟩).servers k2 =
          (updateServers (fun _ => none) "k" ⟨some ⟨5⟩, none, []⟩) k2)) :=
  ⟨rfl, dev_server_start_kills_prior (fun _ _ => .ok ⟨6⟩) "t"
    (updateServers (fun _ => none) "k" ⟨some ⟨5⟩, none, []⟩) "k"
    ⟨"bun", ["run", "dev"], none, none⟩ ⟨5⟩ rfl⟩

/-- C1 counterexample: when spawning `bun run dev` fails with
"command not found", `dev_server_start` spawns a second, fallback
command (`npm run dev`) in the same working directory — and here the
fallback even succeeds, so the call returns `Ok` with no diagnostic at
all. This contradicts the claim that no fallback command is spawned. -/
theorem dev_server_start_fallback_cx :
    (dev_server_start spawnBunFails "12:00:00" (fun _ => none) "/proj"
        ⟨"bun", ["run", "dev"], some 3000, none⟩).eff.spawns =
      [⟨"bun", ["run", "dev"], "/proj", some 3000⟩,
        ⟨"npm", ["run", "dev"], "/proj", some 3000⟩] ∧
    (dev_server_start spawnBunFails "12:00:00" (fun _ => none) "/proj"
        ⟨"bun", ["run", "dev"], some 3000, none⟩).result = .ok () ∧
    spawnBunFails "bun" ["run", "dev"] = .error "command not found" :=
  ⟨rfl, rfl, rfl⟩

/-- C1 (amended): when the primary spawn fails during start, exactly one
fallback spawn with the alternate package manager (`npm` when the
configured command is `bun`, otherwise `bun`, always with args
`run dev`) is attempted in the same working directory; only if the
fallback also fails does start return an error — a plain string naming
both attempted commands but not the working directory — leaving the
table unchanged; if the fallback succeeds the record is installed with
the fallback's child. -/
theorem dev_server_start_fallback (spawn : String → List String → Except String Child)
    (now : String) (servers : Servers) (path : String) (config : DevServerConfig)
    (err : String) (h : spawn config.command config.args = .error err) :
    (dev_server_start spawn now servers path config).eff.spawns =
      [⟨config.command, config.args, path, config.port⟩,
        ⟨if config.command = "bun" then "npm" else "bun", ["run", "dev"], path, config.port⟩] ∧
    (∀ err₂, spawn (if config.command = "bun" then "npm" else "bun") ["run", "dev"] =
        .error err₂ →
      (dev_server_start spawn now servers path config).result =
        .error ("Failed to start dev server with \x27" ++ config.command ++ "\x27 ("
          ++ err ++ "). Fallback \x27"
          ++ (if config.command = "bun" then "npm" else "bun")
          ++ "\x27 failed: " ++ err₂) ∧
      (∀ k, (dev_server_start spawn now servers path config).servers k = servers k)) ∧
    (∀ c, spawn (if config.command = "bun" then "npm" else "bun") ["run", "dev"] = .ok c →
      (dev_server_start spawn now servers path config).result = .ok () ∧
      ((dev_server_start spawn now servers path config).servers path).bind
        DevServerProcess.child = some c) := by
  have hargs : (if (if config.command = "bun" then "npm" else "bun") = "yarn"
      then ["dev"] else ["run", "dev"]) = ["run", "dev"] := by
    by_cases hcb : config.command = "bun" <;> simp [hcb]
  rcases hsp2 : spawn (if config.command = "bun" then "npm" else "bun") ["run", "dev"]
    with err₂ | c2
  · refine ⟨?_, ?_, ?_⟩
    · simp [dev_server_start, h, hargs, hsp2]
    · intro e he
      cases he
      constructor
      · simp [dev_server_start, h, hargs, hsp2]
      · intro k
        simp [dev_server_start, h, hargs, hsp2]
    · intro c hc
      cases hc
  · refine ⟨?_, ?_, ?_⟩
    · simp [dev_server_start, h, hargs, hsp2]
    · intro e he
      cases he
    · intro c hc
      cases hc
      constructor
      · simp [dev_server_start, h, hargs, hsp2]
      · simp [dev_server_start, h, hargs, hsp2, updateServers]

/-- Witness for `dev_server_start_fallback`: a spawn oracle for which
every spawn fails, applied to a `yarn dev` config. -/
theorem dev_server_start_fallback_witness :
    spawnAllFail "yarn" ["dev"] = .error "nf" ∧
    ((dev_server_start spawnAllFail "t" (fun _ => none) "/w"
        ⟨"yarn", ["dev"], none, none⟩).eff.spawns =
      [⟨"yarn", ["dev"], "/w", none⟩, ⟨"bun", ["run", "dev"], "/w", none⟩] ∧
      (∀ err₂, spawnAllFail "bun" ["run", "dev"] = .error err₂ →
        (dev_server_start spawnAllFail "t" (fun _ => none) "/w"
            ⟨"yarn", ["dev"], none, none⟩).result =
          .error ("Failed to start dev server with \x27" ++ "yarn" ++ "\x27 ("
            ++ "nf" ++ "). Fallback \x27" ++ "bun" ++ "\x27 failed: " ++ err₂) ∧
        (∀ k, (dev_server_start spawnAllFail "t" (fun _ => none) "/w"
            ⟨"yarn", ["dev"], none, none⟩).servers k = (fun _ => none : Servers) k)) ∧
      (∀ c, spawnAllFail "bun" ["run", "dev"] = .ok c →
        (dev_server_start spawnAllFail "t" (fun _ => none) "/w"
            ⟨"yarn", ["dev"], none, none⟩).result = .ok () ∧
        ((dev_server_start spawnAllFail "t" (fun _ => none) "/w"
            ⟨"yarn", ["dev"], none, none⟩).servers "/w").bind
          DevServerProcess.child = some c)) := by
  have hmain := dev_server_start_fallback spawnAllFail "t" (fun _ => none) "/w"
    ⟨"yarn", ["dev"], none, none⟩ "nf" rfl
  exact ⟨rfl, by simpa using hmain⟩

/-- C7 counterexample: a `package.json` with a dev script but no
`packageManager` field makes detection return a `bun` config — the
function consults no lockfiles (they are not among its inputs at all)
and never fails with "none" on an unrecognized or absent manager. -/
theorem dev_server_detect_no_lockfile_check_cx :
    dev_server_detect (.parsed (mkPkgJson none "next dev")) =
      .ok (some ⟨"bun", ["run", "dev"], some 3000, none⟩) ∧
    dev_server_detect (.parsed (mkPkgJson none "next dev")) ≠ .ok none := by
  refine ⟨rfl, ?_⟩
  intro hcontra
  rw [show dev_server_detect (.parsed (mkPkgJson none "next dev")) =
    .ok (some ⟨"bun", ["run", "dev"], some 3000, none⟩) from rfl] at hcontra
  simp at hcontra

/-- C7 (amended): package-manager detection consults only the
`packageManager` field of `package.json`: a field with prefix `pnpm`,
`npm` or `yarn` (checked in that order, case-lowered) selects that
manager, and any other or absent field defaults to `bun`; no lockfile
is ever consulted, and whenever a non-empty `scripts.dev` string is
present detection succeeds with some config (never "none"). -/
theorem dev_server_detect_manager_from_field (pmField : Option String) (d : String)
    (hparts : splitWhitespace d ≠ []) :
    ∃ cfg, dev_server_detect (.parsed (mkPkgJson pmField d)) = .ok (some cfg) ∧
      cfg.command = (match pmField with
        | some pm =>
          if strStarts (charsLower pm) "pnpm" then "pnpm"
          else if strStarts (charsLower pm) "npm" then "npm"
          else if strStarts (charsLower pm) "yarn" then "yarn"
          else "bun"
        | none => "bun") ∧
      cfg.args = (if cfg.command = "yarn" then ["dev"] else ["run", "dev"]) ∧
      cfg.port = (parse_explicit_port_from_dev_script d).or (infer_default_dev_port d) ∧
      cfg.explicit_port = parse_explicit_port_from_dev_script d := by
  cases pmField with
  | none =>
    have hjson : dev_server_detect (.parsed (mkPkgJson none d)) =
        (if splitWhitespace d = [] then .ok none
         else .ok (some ⟨"bun", ["run", "dev"],
           (parse_explicit_port_from_dev_script d).or (infer_default_dev_port d),
           parse_explicit_port_from_dev_script d⟩)) := rfl
    exact ⟨⟨"bun", ["run", "dev"],
      (parse_explicit_port_from_dev_script d).or (infer_default_dev_port d),
      parse_explicit_port_from_dev_script d⟩,
      by rw [hjson, if_neg hparts], rfl, rfl, rfl, rfl⟩
  | some pm =>
    have hjson : dev_server_detect (.parsed (mkPkgJson (some pm) d)) =
        (if splitWhitespace d = [] then .ok none
         else .ok (some ⟨
           (if strStarts (charsLower pm) "pnpm" then "pnpm"
            else if strStarts (charsLower pm) "npm" then "npm"
            else if strStarts (charsLower pm) "yarn" then "yarn"
            else "bun"),
           (if (if strStarts (charsLower pm) "pnpm" then "pnpm"
                else if strStarts (charsLower pm) "npm" then "npm"
                else if strStarts (charsLower pm) "yarn" then "yarn"
                else "bun") = "yarn" then ["dev"] else ["run", "dev"]),
           (parse_explicit_port_from_dev_script d).or (infer_default_dev_port d),
           parse_explicit_port_from_dev_script d⟩)) := rfl
    exact ⟨⟨(if strStarts (charsLower pm) "pnpm" then "pnpm"
        else if strStarts (charsLower pm) "npm" then "npm"
        else if strStarts (charsLower pm) "yarn" then "yarn"
        else "bun"),
      (if (if strStarts (charsLower pm) "pnpm" then "pnpm"
           else if strStarts (charsLower pm) "npm" then "npm"
           else if strStarts (charsLower pm) "yarn" then "yarn"
           else "bun") = "yarn" then ["dev"] else ["run", "dev"]),
      (parse_explicit_port_from_dev_script d).or (infer_default_dev_port d),
      parse_explicit_port_from_dev_script d⟩,
      by rw [hjson, if_neg hparts], rfl, rfl, rfl, rfl⟩

/-- Witness for `dev_server_detect_manager_from_field`: a capitalized
`Yarn@4.1.0` field with dev script `vite`. -/
theorem dev_server_detect_manager_from_field_witness :
    splitWhitespace "vite" ≠ [] ∧
    (∃ cfg, dev_server_detect (.parsed (mkPkgJson (some "Yarn@4.1.0") "vite")) =
        .ok (some cfg) ∧
      cfg.command = (match (some "Yarn@4.1.0" : Option String) with
        | some pm =>
          if strStarts (charsLower pm) "pnpm" then "pnpm"
          else if strStarts (charsLower pm) "npm" then "npm"
          else if strStarts (charsLower pm) "yarn" then "yarn"
          else "bun"
        | none => "bun") ∧
      cfg.args = (if cfg.command = "yarn" then ["dev"] else ["run", "dev"]) ∧
      cfg.port = (parse_explicit_port_from_dev_script "vite").or
        (infer_default_dev_port "vite") ∧
      cfg.explicit_port = parse_explicit_port_from_dev_script "vite") :=
  ⟨by decide, dev_server_detect_manager_from_field (some "Yarn@4.1.0") "vite" (by decide)⟩

theorem goPorts_cons (part : String) (rest : List String) :
    goPorts (part :: rest) =
      (if part = "-p" ∨ part = "--port" then
        match rest with
        | next :: _ =>
          (match parseU16 next with
            | some port => some port
            | none => goPorts rest)
        | [] => goPorts rest
      else if strStarts part "--port=" then
        match parseU16 (dropChars part 7) with
        | some port => some port
        | none => goPorts rest
      else if strStarts part "-p" then
        match parseU16 (dropChars part 2) with
        | some port => some port
        | none => goPorts rest
      else goPorts rest) := rfl

theorem goPorts_append_none (rest : List String)
    (hhead : ∀ next, rest.head? = some next → parseU16 next = none) :
    ∀ pre, goPorts pre = none → goPorts (pre ++ rest) = goPorts rest := by
  intro pre
  induction pre with
  | nil => intro _; rw [List.nil_append]
  | cons part pre ih =>
    intro h1
    rw [goPorts_cons] at h1
    rw [List.cons_append, goPorts_cons]
    by_cases hflag : part = "-p" ∨ part = "--port"
    · rw [if_pos hflag] at h1 ⊢
      rcases hpre : pre with _ | ⟨q, pre2⟩
      · subst hpre
        rw [List.nil_append]
        rcases hrest : rest with _ | ⟨next, rest2⟩
        · rfl
        · have hn : parseU16 next = none := by
            apply hhead
            rw [hrest]
            rfl
          simp [hn]
      · subst hpre
        have h1a : (match parseU16 q with
            | some port => some port
            | none => goPorts (q :: pre2)) = none := h1
        rcases hq : parseU16 q with _ | v
        · rw [hq] at h1a
          show (match parseU16 q with
            | some port => some port
            | none => goPorts (q :: pre2 ++ rest)) = goPorts rest
          rw [hq]
          exact ih h1a
        · rw [hq] at h1a
          simp at h1a
    · rw [if_neg hflag] at h1 ⊢
      by_cases hps : strStarts part "--port=" = true
      · rw [if_pos hps] at h1 ⊢
        rcases hq : parseU16 (dropChars part 7) with _ | v
        · rw [hq] at h1
          exact ih h1
        · rw [hq] at h1
          simp at h1
      · rw [if_neg hps] at h1 ⊢
        by_cases hp2 : strStarts part "-p" = true
        · rw [if_pos hp2] at h1 ⊢
          rcases hq : parseU16 (dropChars part 2) with _ | v
          · rw [hq] at h1
            exact ih h1
          · rw [hq] at h1
            simp at h1
        · rw [if_neg hp2] at h1 ⊢
          exact ih h1

theorem goPorts_flag_forms (post : List String) :
    goPorts ("-p" :: "7842" :: post) = some 7842 ∧
    goPorts ("--port" :: "7842" :: post) = some 7842 ∧
    goPorts ("--port=7842" :: post) = some 7842 ∧
    goPorts ("-p7842" :: post) = some 7842 := by
  have h42 : parseU16 "7842" = some 7842 := by decide
  have h42e : parseU16 (dropChars "--port=7842" 7) = some 7842 := by decide
  have h42p : parseU16 (dropChars "-p7842" 2) = some 7842 := by decide
  refine ⟨?_, ?_, ?_, ?_⟩
  · rw [goPorts_cons, if_pos (Or.inl rfl)]
    simp only [h42]
  · rw [goPorts_cons, if_pos (Or.inr rfl)]
    simp only [h42]
  · rw [goPorts_cons, if_neg (by decide), if_pos (by decide)]
    simp only [h42e]
  · rw [goPorts_cons, if_neg (by decide), if_neg (by decide), if_pos (by decide)]
    simp only [h42p]

/-- C8: for a dev script whose earlier tokens yield no explicit port,
each of the four flag forms `-p 7842`, `--port 7842`, `--port=7842` and
`-p7842` makes the explicit-port parser return 7842, whatever follows;
the parser scans tokens left-to-right (it is exactly the token scan
`goPorts` over the whitespace-split script), and a flag whose value is
not a valid port is skipped in favour of a later valid one. -/
theorem parse_explicit_port_four_forms (pre post : List String)
    (hpre : goPorts pre = none) :
    goPorts (pre ++ "-p" :: "7842" :: post) = some 7842 ∧
    goPorts (pre ++ "--port" :: "7842" :: post) = some 7842 ∧
    goPorts (pre ++ "--port=7842" :: post) = some 7842 ∧
    goPorts (pre ++ "-p7842" :: post) = some 7842 ∧
    (∀ s, parse_explicit_port_from_dev_script s = goPorts (splitWhitespace s)) ∧
    parse_explicit_port_from_dev_script "next dev -p 99999 --port 7842" = some 7842 := by
  refine ⟨?_, ?_, ?_, ?_, ?_, by decide⟩
  · rw [goPorts_append_none _ ?_ pre hpre]
    · exact (goPorts_flag_forms post).1
    · intro next h
      rw [List.head?_cons, Option.some.injEq] at h
      subst h
      decide
  · rw [goPorts_append_none _ ?_ pre hpre]
    · exact (goPorts_flag_forms post).2.1
    · intro next h
      rw [List.head?_cons, Option.some.injEq] at h
      subst h
      decide
  · rw [goPorts_append_none _ ?_ pre hpre]
    · exact (goPorts_flag_forms post).2.2.1
    · intro next h
      rw [List.head?_cons, Option.some.injEq] at h
      subst h
      decide
  · rw [goPorts_append_none _ ?_ pre hpre]
    · exact (goPorts_flag_forms post).2.2.2
    · intro next h
      rw [List.head?_cons, Option.some.injEq] at h
      subst h
      decide
  · intro s
    unfold parse_explicit_port_from_dev_script
    by_cases h : splitWhitespace s = [] <;> simp [h, goPorts]

/-- Witness for `parse_explicit_port_four_forms` at the scripts
`next dev <flag>`: the prefix `next dev` holds no port flag. -/
theorem parse_explicit_port_four_forms_witness :
    goPorts ["next", "dev"] = none ∧
    (goPorts (["next", "dev"] ++ "-p" :: "7842" :: []) = some 7842 ∧
      goPorts (["next", "dev"] ++ "--port" :: "7842" :: []) = some 7842 ∧
      goPorts (["next", "dev"] ++ "--port=7842" :: []) = some 7842 ∧
      goPorts (["next", "dev"] ++ "-p7842" :: []) = some 7842 ∧
      (∀ s, parse_explicit_port_from_dev_script s = goPorts (splitWhitespace s)) ∧
      parse_explicit_port_from_dev_script "next dev -p 99999 --port 7842" = some 7842) :=
  ⟨by decide, parse_explicit_port_four_forms ["next", "dev"] [] (by decide)⟩

/-- C5 counterexample: with the tracked process alive, expected port
3000 unreachable and the logs containing
`Local: http://localhost:5173`, `dev_server_diagnose` classifies the
situation as `wrong_port` — it never scans the logs for an observed
port, reports no `observedPort` (the diagnosis struct has no such
field), builds no preferred URL, and in particular does not produce a
`PortMismatch` diagnosis. -/
theorem dev_server_diagnose_no_port_mismatch_cx :
    (dev_server_diagnose (fun _ => true) (fun _ _ => false)
        (.parsed (mkPkgJson none "next dev")) true cxDiagnoseServers "/proj" 3000).map
      DevServerDiagnosis.diagnosis_code = .ok "wrong_port" ∧
    ("wrong_port" : String) ≠ "PortMismatch" :=
  ⟨rfl, by decide⟩

/-- C5 (amended): whenever the filesystem checks pass, the tracked
child is alive, the TCP probe on the expected port fails, and the log
tail matches none of the earlier log-pattern rules, the diagnosis is
`wrong_port`, carrying a message naming the expected port and a
suggestion that the framework may use a different port; no observed
port and no preferred URL exist in the diagnosis. -/
theorem dev_server_diagnose_wrong_port (alive : Nat → Bool) (reach : String → Nat → Bool)
    (pkg : PkgJsonFile) (servers : Servers) (path : String) (port : Nat)
    (server : DevServerProcess) (child : Child)
    (hdev : hasDevScriptIn pkg = true)
    (hs : servers path = some server)
    (hc : server.child = some child)
    (ha : alive child.pid = true)
    (hreach : tcp_port_check reach port = false)
    (hpat : logPatternFree (String.intercalate "\n"
        (server.logs.drop
          (if 20 < server.logs.length then server.logs.length - 20 else 0))) = true) :
    dev_server_diagnose alive reach pkg true servers path port =
      .ok ⟨true, false,
        server.logs.drop (if 20 < server.logs.length then server.logs.length - 20 else 0),
        "Server started but isn\x27t responding on port " ++ Nat.repr port,
        "Your framework may use a different port. Check your config file (next.config.js, vite.config.ts, etc.) or try waiting a bit longer for large projects.",
        none, "wrong_port"⟩ := by
  simp only [logPatternFree, Bool.and_eq_true, Bool.not_eq_true'] at hpat
  obtain ⟨⟨⟨⟨⟨⟨⟨⟨⟨⟨p1, p2⟩, p3⟩, p4⟩, p5⟩, p6⟩, p7⟩, p8⟩, p9⟩, p10⟩, p11⟩ := hpat
  cases pkg with
  | missing => simp [hasDevScriptIn] at hdev
  | unreadable e => simp [hasDevScriptIn] at hdev
  | malformed e => simp [hasDevScriptIn] at hdev
  | parsed json =>
    simp [dev_server_diagnose, hdev, hs, hc, ha, hreach,
      p1, p2, p3, p4, p5, p6, p7, p8, p9, p10, p11]

/-- Witness for `dev_server_diagnose_wrong_port` at the concrete
scenario: alive child, port 3000 unreachable, logs naming port 5173. -/
theorem dev_server_diagnose_wrong_port_witness :
    hasDevScriptIn (.parsed (mkPkgJson none "next dev")) = true ∧
    cxDiagnoseServers "/proj" =
      some ⟨some ⟨9⟩, some 3000, ["Local: http://localhost:5173"]⟩ ∧
    (⟨some ⟨9⟩, some 3000, ["Local: http://localhost:5173"]⟩ :
        DevServerProcess).child = some ⟨9⟩ ∧
    (fun _ => true : Nat → Bool) (9 : Nat) = true ∧
    tcp_port_check (fun _ _ => false) 3000 = false ∧
    logPatternFree (String.intercalate "\n"
      ((["Local: http://localhost:5173"] : List String).drop
        (if 20 < (["Local: http://localhost:5173"] : List String).length
          then (["Local: http://localhost:5173"] : List String).length - 20 else 0))) =
      true ∧
    dev_server_diagnose (fun _ => true) (fun _ _ => false)
        (.parsed (mkPkgJson none "next dev")) true cxDiagnoseServers "/proj" 3000 =
      .ok ⟨true, false, ["Local: http://localhost:5173"],
        "Server started but isn\x27t responding on port " ++ Nat.repr 3000,
        "Your framework may use a different port. Check your config file (next.config.js, vite.config.ts, etc.) or try waiting a bit longer for large projects.",
        none, "wrong_port"⟩ :=
  ⟨rfl, rfl, rfl, rfl, rfl, by decide,
    dev_server_diagnose_wrong_port (fun _ => true) (fun _ _ => false)
      (.parsed (mkPkgJson none "next dev")) cxDiagnoseServers "/proj" 3000
      ⟨some ⟨9⟩, some 3000, ["Local: http://localhost:5173"]⟩ ⟨9⟩
      rfl rfl rfl rfl rfl (by decide)⟩
